import Mathlib

/-!
# MOONLIT back-end: shallow embedding and verification

This file embeds, in Lean 4, the parts of the MOONLIT back-end that the
verified properties talk about:

* `database/operations.py` — `execute_sql_query` (read-only query gate,
  truncation accounting) and `DatabaseOperations.get_databases` (system
  database filtering);
* `database/adapters/*.py` — per-engine `get_system_databases` sets;
* `services/context_service.py` — `ContextService` (connection staleness
  state machine, schema cache with TTL, query history ring buffer,
  `clear_connection` frame behaviour);
* `services/ai_tools.py` — `AIToolExecutor.execute` (per-call exception
  containment);
* `services/llm/orchestrator.py` — `ChatOrchestrator.stream_with_tools`
  (bounded agentic loop, LLM call counting).

Python strings are modelled as `String` (or `List Char` where character
counts matter), dictionaries as structures or association lists, wall-clock
timestamps as `Nat` seconds, and effects (driver execution, probing,
Firestore writes) as explicit state passing and boolean effect flags.
Exception-raising collaborators are modelled as `Except`-valued parameters.
-/

namespace Moonlit

/-! ## Security analysis result (shape of DatabaseSecurity.analyze_sql_query)

`database/security.py` is not part of the embedded core; `execute_sql_query`
only consumes the analysis record `{query_type, is_safe, warnings}` described
in the spec (§4.3), so the analyzer is kept abstract: `execute_sql_query`
takes the analysis function as a parameter. -/

structure SqlAnalysis where
  is_safe : Bool
  query_type : String
  warnings : List String
  deriving Repr, DecidableEq

/-- A database row, abstracted as a list of cell strings. -/
abbrev Row := List String

/-- Result dictionary shapes returned by `execute_sql_query`
(`database/operations.py`).  The error branches return
`{'status': 'error', 'message': ..., ['query_type_blocked': ...]}`;
the success branch returns the result record (its wall-clock fields
`message`/`execution_time_ms` and the constant `query_type: SELECT` are
not modelled — real time is outside the embedding). -/
inductive ExecResult where
  | error (message : String) (query_type_blocked : Option String)
  | success (fields : List String) (rows : List Row) (row_count : Nat)
      (total_rows : Nat) (truncated : Bool)
  deriving Repr, DecidableEq

def ExecResult.status : ExecResult → String
  | .error _ _ => "error"
  | .success _ _ _ _ _ => "success"

def ExecResult.isError : ExecResult → Bool
  | .error _ _ => true
  | _ => false

def ExecResult.blockedType : ExecResult → Option String
  | .error _ b => b
  | _ => none

def ExecResult.rowsOf : ExecResult → List Row
  | .success _ r _ _ _ => r
  | _ => []

def ExecResult.rowCount : ExecResult → Nat
  | .success _ _ rc _ _ => rc
  | _ => 0

def ExecResult.totalRows : ExecResult → Nat
  | .success _ _ _ tr _ => tr
  | _ => 0

def ExecResult.truncated : ExecResult → Bool
  | .success _ _ _ _ t => t
  | _ => false

/-- Outcome of one `execute_sql_query` call, together with effect flags:
whether `DatabaseSecurity.analyze_sql_query` was invoked and whether the
user's SQL string was handed to the database driver (`cursor.execute`). -/
structure ExecOutcome where
  result : ExecResult
  analysis_run : Bool
  driver_executed : Bool
  deriving Repr, DecidableEq

/-- Shallow embedding of `execute_sql_query`
(`database/operations.py`, lines 264–387), success path only up to the
driver boundary: the driver's `fetchall()` result and the cursor's column
names are parameters (`driverRows`, `driverFields`), as are the two config
constants (`config.py` is outside the embedded core).  The query is a
`List Char` so that `len(sql_query)` is the character count.

Control flow mirrors the source:
1. reject when `len(sql_query) > Config.MAX_QUERY_LENGTH` (before analysis);
2. run the analysis; reject unsafe queries;
3. reject non-`SELECT` query types, surfacing `query_type_blocked`;
4. otherwise execute, fetch rows, and truncate to
   `max_rows if max_rows is not None else Config.MAX_QUERY_RESULTS`,
   reporting `row_count = len(rows)` (post-truncation) and
   `total_rows` (pre-truncation). -/
def execute_sql_query (maxQueryLength maxQueryResults : Nat)
    (analyze : List Char → SqlAnalysis)
    (driverFields : List String) (driverRows : List Row)
    (sql_query : List Char) (max_rows : Option Nat) : ExecOutcome :=
  if sql_query.length > maxQueryLength then
    { result := .error ("Query too long. Maximum allowed length is " ++
        toString maxQueryLength ++ " characters.") none,
      analysis_run := false, driver_executed := false }
  else
    let analysis := analyze sql_query
    if ¬ analysis.is_safe then
      { result := .error ("Query blocked for security reasons: " ++
          String.intercalate ", " analysis.warnings) none,
        analysis_run := true, driver_executed := false }
    else if analysis.query_type ≠ "SELECT" then
      { result := .error ("READ-ONLY MODE: Only SELECT queries are allowed. " ++
          analysis.query_type ++ " operations are blocked for security. This " ++
          "system is designed for data exploration and analysis only.")
          (some analysis.query_type),
        analysis_run := true, driver_executed := false }
    else
      let rows := driverRows
      let actual_max_rows := max_rows.getD maxQueryResults
      let row_count := rows.length
      let truncated := row_count > actual_max_rows
      let rows2 := if truncated then rows.take actual_max_rows else rows
      { result := .success driverFields rows2 rows2.length row_count truncated,
        analysis_run := true, driver_executed := true }

/-! ## Database adapters: system database sets and list-databases filtering

From `database/adapters/postgresql_adapter.py`, `sqlserver_adapter.py`,
`oracle_adapter.py` (the three adapter sources present in the repository)
and `DatabaseOperations.get_databases` in `database/operations.py`. -/

inductive DBEngine where
  | postgresql
  | sqlserver
  | oracle
  deriving Repr, DecidableEq

/-- `get_system_databases` per adapter, verbatim from each adapter source
(each returns a Python set; modelled as a list with membership). -/
def get_system_databases : DBEngine → List String
  | .postgresql => ["template0", "template1"]
  | .sqlserver => ["master", "tempdb", "model", "msdb"]
  | .oracle =>
      ["sys", "system", "oracle_ocm", "xdb", "wmsys",
       "ctxsys", "mdsys", "olapsys", "orddata", "ordsys",
       "outln", "dbsnmp", "appqossys", "anonymous"]

/-- Python `str.lower()` (ASCII-relevantly, `String.toLower`): stated through
the character list so that concrete instances evaluate. -/
def pyLower (s : String) : String :=
  ⟨s.data.map Char.toLower⟩

/-- The filtering step of `DatabaseOperations.get_databases`
(`database/operations.py`, lines 57–59):
`[db for db in databases if db.lower() not in system_dbs]`.
The fetched name list (driver `fetchall` result) is a parameter. -/
def get_databases_user_list (engine : DBEngine) (databases : List String) :
    List String :=
  databases.filter (fun db => !((get_system_databases engine).contains (pyLower db)))

/-! ## Chat orchestrator: bounded agentic loop
(`services/llm/orchestrator.py`, `ChatOrchestrator.stream_with_tools`)

The loop is `while tool_round < MAX_TOOL_ROUNDS:` with `tool_round`
starting at 0; each iteration increments `tool_round` and makes exactly one
LLM call (`client.chat.completions.create` with tools), breaking early when
the response carries no tool calls.  After the loop, one more streaming
LLM call is always made ("final response after all tool executions").
The model's behaviour is abstracted as `m : Nat → Bool`: `m round` is true
when the response to the LLM call of round number `round` requests tool
calls. -/

def MAX_TOOL_ROUNDS : Nat := 10

/-- LLM calls made by the tool loop, starting at round `round` with
`fuel = MAX_TOOL_ROUNDS - (round - 1)` iterations remaining.  Each
iteration costs one call; the loop continues only while the model keeps
requesting tools and fuel remains. -/
def toolRoundCalls (m : Nat → Bool) : Nat → Nat → Nat
  | 0, _ => 0
  | fuel + 1, round => if m round then 1 + toolRoundCalls m fuel (round + 1) else 1

/-- Total LLM calls of one `stream_with_tools` run (no-exception path):
the tool-loop calls plus the single finalizing streaming call. -/
def stream_with_tools_llm_calls (m : Nat → Bool) : Nat :=
  toolRoundCalls m MAX_TOOL_ROUNDS 1 + 1

/-! ## AIToolExecutor (`services/ai_tools.py`)

`AIToolExecutor.execute` dispatches on the tool name inside a
`try/except Exception` that converts any raised exception into
`{"error": str(e)}`; an unrecognized name yields
`{"error": "Unknown tool: <name>"}`.  The seven tool branch bodies
(argument extraction, coercions such as `int(max_rows)`, and the
underlying service calls) run inside the `try`, so they are abstracted as
one fallible handler parameter returning `Except`: `.error msg` models any
exception raised in the branch. -/

inductive ToolName where
  | get_connection_status
  | get_database_list
  | get_database_schema
  | get_table_columns
  | execute_query
  | get_recent_queries
  | get_sample_data
  deriving Repr, DecidableEq

/-- The `if/elif` chain of `AIToolExecutor.execute` matching the tool name
against the seven known literals. -/
def parseToolName (tool_name : String) : Option ToolName :=
  if tool_name = "get_connection_status" then some .get_connection_status
  else if tool_name = "get_database_list" then some .get_database_list
  else if tool_name = "get_database_schema" then some .get_database_schema
  else if tool_name = "get_table_columns" then some .get_table_columns
  else if tool_name = "execute_query" then some .execute_query
  else if tool_name = "get_recent_queries" then some .get_recent_queries
  else if tool_name = "get_sample_data" then some .get_sample_data
  else none

/-- Tool call parameters: the JSON argument dict, as string key/value pairs. -/
abbrev ToolParams := List (String × String)

/-- Result dict of `AIToolExecutor.execute`: either a payload dict from the
tool branch, or a dict carrying an `"error"` field. -/
inductive ToolResult where
  | payload (data : List (String × String))
  | errorField (msg : String)
  deriving Repr, DecidableEq

def ToolResult.hasErrorField : ToolResult → Bool
  | .errorField _ => true
  | .payload _ => false

/-- Shallow embedding of `AIToolExecutor.execute`
(`services/ai_tools.py`, lines 229–291).  `handler t params` is the body of
the branch for tool `t` (any exception it raises = `.error`).  `parameters`
may be `none` (the source replaces `None` with `{}` before dispatch). -/
def aiToolExecutor_execute
    (handler : ToolName → ToolParams → Except String (List (String × String)))
    (tool_name : String) (parameters : Option ToolParams) : ToolResult :=
  let params := parameters.getD []
  match parseToolName tool_name with
  | some t =>
      match handler t params with
      | .ok data => .payload data
      | .error e => .errorField e
  | none => .errorField ("Unknown tool: " ++ tool_name)

/-! ## ContextService (`services/context_service.py`)

The Firestore document `user_context/{user_id}` is modelled as
`UserContext`.  Timestamps are `Nat` seconds.  `_update_context` performs a
Firestore `set(..., merge=True)`, which merges maps recursively: fields not
present in the written data are preserved; this is reflected at each call
site (e.g. `clear_connection` leaves the previous `connected_at` in place
because its written map does not contain that key). -/

def MAX_RECENT_QUERIES : Nat := 10

def SCHEMA_CACHE_TTL_SECONDS : Nat := 300

/-- The `current_connection` map. -/
structure CurrentConnection where
  connected : Bool
  db_type : Option String
  database : Option String
  host : Option String
  is_remote : Bool
  schema : Option String
  connected_at : Option Nat
  disconnected_at : Option Nat
  deriving Repr, DecidableEq

/-- The default used by `context.get('current_connection', {'connected': False})`. -/
def CurrentConnection.absent : CurrentConnection :=
  { connected := false, db_type := none, database := none, host := none,
    is_remote := false, schema := none, connected_at := none,
    disconnected_at := none }

/-- Stand-in for `compute_schema_hash` (md5 of the canonical sorted JSON in
the source): abstracted as the canonical content itself, which preserves the
change-detection semantics (equal hash iff equal content); no verified claim
depends on the hash representation. -/
def compute_schema_hash (tables : List String)
    (columns : List (String × List String)) :
    List String × List (String × List String) :=
  (tables, columns)

/-- One entry of the `database_schemas` map (`cache_schema` write shape). -/
structure SchemaEntry where
  tables : List String
  columns : List (String × List String)
  schema_hash : List String × List (String × List String)
  cached_at : Option Nat
  deriving Repr, DecidableEq

/-- One entry of the `recent_queries` list (`add_query` write shape);
the query text is a character list so that `query[:500]` is a 500-character
prefix. -/
structure QueryEntry where
  query : List Char
  database : String
  row_count : Nat
  status : String
  executed_at : Nat
  deriving Repr, DecidableEq

/-- The per-user context document. -/
structure UserContext where
  current_connection : Option CurrentConnection
  database_schemas : List (String × SchemaEntry)
  recent_queries : List QueryEntry
  preferences : List (String × Nat)
  updated_at : Option Nat
  deriving Repr, DecidableEq

/-- Association-list lookup (Python dict `get`). -/
def lookupEntry {α : Type} (l : List (String × α)) (key : String) : Option α :=
  (l.find? (fun p => p.1 == key)).map (·.2)

/-- Association-list upsert (Python dict `d[key] = value`). -/
def upsertEntry {α : Type} : List (String × α) → String → α → List (String × α)
  | [], key, v => [(key, v)]
  | (k, w) :: rest, key, v =>
      if k == key then (key, v) :: rest else (k, w) :: upsertEntry rest key v

/-- `ContextService.get_user_preference(user_id, 'connection_persistence_minutes', 0)`. -/
def connection_persistence_minutes (ctx : UserContext) : Nat :=
  (lookupEntry ctx.preferences "connection_persistence_minutes").getD 0

/-- `ContextService.clear_connection` (lines 141–156): writes a
`current_connection` map with `connected=False` and nulled fields plus
`disconnected_at`, through `_update_context` (merge), which also stamps
`updated_at`.  The nested merge preserves the prior `connected_at` (the
written map has no such key); all other top-level fields are untouched. -/
def clear_connection (ctx : UserContext) (now : Nat) : UserContext :=
  { ctx with
    current_connection := some
      { connected := false, db_type := none, database := none, host := none,
        is_remote := false, schema := none,
        connected_at := ctx.current_connection.bind (·.connected_at),
        disconnected_at := some now },
    updated_at := some now }

/-- `ContextService.set_connection` (lines 113–139). -/
def set_connection (ctx : UserContext) (db_type database host : String)
    (is_remote : Bool) (schema : String) (now : Nat) : UserContext :=
  { ctx with
    current_connection := some
      { connected := true, db_type := some db_type, database := some database,
        host := some host, is_remote := is_remote, schema := some schema,
        connected_at := some now,
        disconnected_at := ctx.current_connection.bind (·.disconnected_at) },
    updated_at := some now }

/-- `ContextService._refresh_connection_timestamp` (lines 319–342): re-reads
the stored connection and, when connected, rewrites the whole
`current_connection` map with a fresh `connected_at`. -/
def refresh_connection_timestamp (ctx : UserContext) (now : Nat) : UserContext :=
  match ctx.current_connection with
  | some conn =>
      if conn.connected then
        { ctx with
          current_connection := some { conn with connected_at := some now },
          updated_at := some now }
      else ctx
  | none => ctx

/-- Result shapes returned by `ContextService.get_connection`: either the
stored `current_connection` map (`return connection`), or the stale-cleared
dict `{'connected': False, 'stale_cleared': True, 'reason': reason}`. -/
inductive ConnResult where
  | stored (conn : CurrentConnection)
  | staleCleared (reason : String)
  deriving Repr, DecidableEq

/-- The `connected` field of the returned dict. -/
def ConnResult.connectedB : ConnResult → Bool
  | .stored conn => conn.connected
  | .staleCleared _ => false

/-- The `reason` field of the returned dict (absent on the stored shape). -/
def ConnResult.reason : ConnResult → Option String
  | .stored _ => none
  | .staleCleared r => some r

/-- Outcome of one `get_connection` call: the returned dict, the context
after any auto-clear/refresh writes, and whether `_verify_db_connection`
(the trivial-query probe) was invoked. -/
structure GetConnOutcome where
  result : ConnResult
  ctx : UserContext
  probed : Bool
  deriving Repr, DecidableEq

/-- Shallow embedding of `ContextService.get_connection` (lines 158–281).

Environment parameters: `session_configured` is
`database.session_utils.is_db_configured()` (live Flask-session DB config),
`pool_alive` is the outcome of the `SELECT 1` probe on the pooled
connection, `now` the current time in seconds.

Control flow mirrors the source:
* Layer 1: stored `connected` but no session config → auto-clear, return
  reason `"session_expired"`.
* Layer 2: stored `connected` with a `connected_at`: preference 0 returns
  the stored map immediately (no probe); a positive preference whose window
  is exceeded invokes `_verify_db_connection` (which itself rechecks the
  session config before probing) — on failure auto-clear with reason
  `"db_pool_dead"`, on success refresh `connected_at` and return the stored
  map.
* otherwise return the stored map unchanged. -/
def get_connection (ctx : UserContext) (session_configured pool_alive : Bool)
    (now : Nat) : GetConnOutcome :=
  let connection := ctx.current_connection.getD CurrentConnection.absent
  if connection.connected ∧ ¬ session_configured then
    { result := .staleCleared "session_expired",
      ctx := clear_connection ctx now, probed := false }
  else if connection.connected then
    match connection.connected_at with
    | some t =>
        let persistence_minutes := connection_persistence_minutes ctx
        if persistence_minutes = 0 then
          { result := .stored connection, ctx := ctx, probed := false }
        else
          let persistence_seconds := persistence_minutes * 60
          let age_seconds := now - t
          if age_seconds > persistence_seconds then
            let verified := session_configured && pool_alive
            if verified then
              { result := .stored connection,
                ctx := refresh_connection_timestamp ctx now, probed := true }
            else
              { result := .staleCleared "db_pool_dead",
                ctx := clear_connection ctx now, probed := true }
          else
            { result := .stored connection, ctx := ctx, probed := false }
    | none => { result := .stored connection, ctx := ctx, probed := false }
  else
    { result := .stored connection, ctx := ctx, probed := false }

/-- `ContextService.cache_schema` (lines 400–425): build the entry with a
fresh `cached_at`, upsert it into `database_schemas`, write back (merge). -/
def cache_schema (ctx : UserContext) (database : String)
    (tables : List String) (columns : List (String × List String))
    (now : Nat) : UserContext :=
  let entry : SchemaEntry :=
    { tables := tables, columns := columns,
      schema_hash := compute_schema_hash tables columns,
      cached_at := some now }
  { ctx with
    database_schemas := upsertEntry ctx.database_schemas database entry,
    updated_at := some now }

/-- `ContextService.get_cached_schema` (lines 365–398): pure read; absent
entry or an entry older than the TTL reads as `none`; the read performs no
Firestore write (hence no state output). -/
def get_cached_schema (ctx : UserContext) (database : String) (now : Nat) :
    Option SchemaEntry :=
  match lookupEntry ctx.database_schemas database with
  | none => none
  | some cached =>
      match cached.cached_at with
      | some t =>
          if now - t > SCHEMA_CACHE_TTL_SECONDS then none else some cached
      | none => some cached

/-- `ContextService.invalidate_schema_cache` (lines 438–461): deletes the
one nested `database_schemas.<database>` field (Firestore `DELETE_FIELD`
with dot notation) and stamps `updated_at`. -/
def invalidate_schema_cache (ctx : UserContext) (database : String)
    (now : Nat) : UserContext :=
  { ctx with
    database_schemas := ctx.database_schemas.filter (fun p => !(p.1 == database)),
    updated_at := some now }

/-- `ContextService.add_query` (lines 496–525): truncate the query text to
500 characters, append the entry, keep the last `MAX_RECENT_QUERIES`
(`queries[-10:]`), write back. -/
def add_query (ctx : UserContext) (query : List Char) (database : String)
    (row_count : Nat) (status : String) (now : Nat) : UserContext :=
  let entry : QueryEntry :=
    { query := query.take 500, database := database, row_count := row_count,
      status := status, executed_at := now }
  let queries := ctx.recent_queries ++ [entry]
  let kept := queries.drop (queries.length - MAX_RECENT_QUERIES)
  { ctx with recent_queries := kept, updated_at := some now }

/-- The last `n` elements of a list (Python `l[-n:]` for `n > 0`). -/
def lastN {α : Type} (n : Nat) (l : List α) : List α :=
  l.drop (l.length - n)

/-- One `add_query` call's inputs, for iterating sequences of calls. -/
structure AddQueryCall where
  query : List Char
  database : String
  row_count : Nat
  status : String
  now : Nat
  deriving Repr, DecidableEq

/-- The `recent_queries` entry built by one call. -/
def AddQueryCall.entry (c : AddQueryCall) : QueryEntry :=
  { query := c.query.take 500, database := c.database,
    row_count := c.row_count, status := c.status, executed_at := c.now }

/-- A sequence of `add_query` calls applied in order. -/
def applyAddQueries (ctx : UserContext) (calls : List AddQueryCall) : UserContext :=
  calls.foldl (fun c op => add_query c op.query op.database op.row_count op.status op.now) ctx

/-! ## Concrete fixtures (for witnesses and counterexamples) -/

/-- A concrete connected `current_connection`, as written by `set_connection`. -/
def sampleConn : CurrentConnection :=
  { connected := true, db_type := some "postgresql", database := some "shop",
    host := some "localhost", is_remote := false, schema := some "public",
    connected_at := some 0, disconnected_at := none }

/-- A user context holding `sampleConn` and no preferences (so
`connection_persistence_minutes` takes its default 0). -/
def sampleCtx : UserContext :=
  { current_connection := some sampleConn, database_schemas := [],
    recent_queries := [], preferences := [], updated_at := none }

/-- `sampleCtx` with a 1-minute connection persistence preference. -/
def sampleCtxPersist : UserContext :=
  { sampleCtx with preferences := [("connection_persistence_minutes", 1)] }

end Moonlit

namespace Moonlit

/-! ## Helper lemmas -/

/-- The tool loop makes at most `fuel` LLM calls. -/
theorem toolRoundCalls_le (m : Nat → Bool) (fuel : Nat) :
    ∀ round, toolRoundCalls m fuel round ≤ fuel := by
  induction fuel with
  | zero => intro round; simp [toolRoundCalls]
  | succ n ih =>
      intro round
      simp only [toolRoundCalls]
      split
      · have := ih (round + 1); omega
      · omega

/-- Looking up the key just upserted returns the upserted value. -/
theorem lookupEntry_upsertEntry {α : Type} (l : List (String × α)) (key : String) (v : α) :
    lookupEntry (upsertEntry l key v) key = some v := by
  induction l with
  | nil => simp [lookupEntry, upsertEntry, List.find?]
  | cons p rest ih =>
      by_cases h : p.1 == key
      · simp [upsertEntry, h, lookupEntry, List.find?]
      · simp only [upsertEntry]
        rw [if_neg (by simpa using h)]
        simpa [lookupEntry, List.find?, h] using ih

/-- After filtering a key out of an association list, its lookup is `none`. -/
theorem lookupEntry_filter_ne {α : Type} (l : List (String × α)) (key : String) :
    lookupEntry (l.filter (fun p => !(p.1 == key))) key = none := by
  induction l with
  | nil => simp [lookupEntry, List.filter]
  | cons p rest ih =>
      by_cases h : p.1 == key
      · simp [List.filter, h, ih]
      · simp only [List.filter, h]
        simp [lookupEntry, List.find?, h, ih]

/-- The last `n` of a list that already was a last-`n` slice, with more
elements appended, is the last `n` of the un-sliced whole. -/
theorem lastN_append_lastN {α : Type} (n : Nat) (l l2 : List α) :
    lastN n (lastN n l ++ l2) = lastN n (l ++ l2) := by
  by_cases h : l.length ≤ n
  · have h0 : l.length - n = 0 := by omega
    simp [lastN, h0]
  · push_neg at h
    simp only [lastN, List.length_append, List.length_drop]
    have e1 : l.length - (l.length - n) = n := by omega
    rw [e1]
    have e2 : n + l2.length - n = l2.length := by omega
    rw [e2]
    rw [List.drop_append_eq_append_drop, List.drop_drop]
    rw [List.drop_append_eq_append_drop]
    have e3 : l.length - n + l2.length = l.length + l2.length - n := by omega
    rw [e3]
    have e4 : l.length + l2.length - n - l.length = l2.length - n := by omega
    rw [e4, List.length_drop, e1]

/-- A last-`n` slice (for positive `n`) of a list ending in `e` ends in `e`. -/
theorem lastN_getLast?_concat {α : Type} (n : Nat) (hn : 0 < n)
    (l : List α) (e : α) :
    (lastN n (l ++ [e])).getLast? = some e := by
  simp only [lastN]
  rw [List.drop_append_eq_append_drop]
  have h0 : (l ++ [e]).length - n - l.length = 0 := by
    simp only [List.length_append, List.length_singleton]
    omega
  rw [h0]
  simp [List.getLast?_concat]

/-- One `add_query` call stores the last `MAX_RECENT_QUERIES` of the old
history plus the new (truncated) entry. -/
theorem add_query_recent_queries
    (ctx : UserContext) (q : List Char) (db : String) (rc : Nat) (st : String)
    (now : Nat) :
    (add_query ctx q db rc st now).recent_queries =
      lastN MAX_RECENT_QUERIES (ctx.recent_queries ++
        [{ query := q.take 500, database := db, row_count := rc,
           status := st, executed_at := now }]) := rfl

/-- Any nonempty sequence of `add_query` calls leaves exactly the last
`MAX_RECENT_QUERIES` of (initial history ++ all new entries), in call order. -/
theorem applyAddQueries_recent
    (calls : List AddQueryCall) (ctx : UserContext) (c0 : AddQueryCall) :
    (applyAddQueries ctx (c0 :: calls)).recent_queries =
      lastN MAX_RECENT_QUERIES
        (ctx.recent_queries ++ (c0 :: calls).map AddQueryCall.entry) := by
  induction calls generalizing ctx c0 with
  | nil =>
      simp only [applyAddQueries, List.foldl, List.map]
      exact add_query_recent_queries ctx c0.query c0.database c0.row_count
        c0.status c0.now
  | cons c1 cs ih =>
      have step : applyAddQueries ctx (c0 :: c1 :: cs) =
          applyAddQueries (add_query ctx c0.query c0.database c0.row_count
            c0.status c0.now) (c1 :: cs) := rfl
      rw [step, ih, add_query_recent_queries, lastN_append_lastN]
      simp [AddQueryCall.entry, List.append_assoc]

/-! ## Claim theorems -/

/-- Claim C1: `execute_sql_query` hands the query to the database driver
only when the security analysis reports `is_safe` and `query_type =
SELECT`; an over-long query is rejected before the analysis runs; an
unsafe analysis is rejected without executing; a safe non-SELECT analysis
is rejected without executing, surfacing the blocked query type
(`query_type_blocked`). -/
theorem execute_sql_query_read_only_gate
    (maxLen maxRes : Nat) (analyze : List Char → SqlAnalysis)
    (fields : List String) (rows : List Row) (q : List Char) (mr : Option Nat) :
    (q.length > maxLen →
      (execute_sql_query maxLen maxRes analyze fields rows q mr).result.status = "error" ∧
      (execute_sql_query maxLen maxRes analyze fields rows q mr).analysis_run = false ∧
      (execute_sql_query maxLen maxRes analyze fields rows q mr).driver_executed = false) ∧
    (q.length ≤ maxLen → (analyze q).is_safe = false →
      (execute_sql_query maxLen maxRes analyze fields rows q mr).result.status = "error" ∧
      (execute_sql_query maxLen maxRes analyze fields rows q mr).driver_executed = false) ∧
    (q.length ≤ maxLen → (analyze q).is_safe = true → (analyze q).query_type ≠ "SELECT" →
      (execute_sql_query maxLen maxRes analyze fields rows q mr).result.status = "error" ∧
      (execute_sql_query maxLen maxRes analyze fields rows q mr).result.blockedType =
        some (analyze q).query_type ∧
      (execute_sql_query maxLen maxRes analyze fields rows q mr).driver_executed = false) ∧
    ((execute_sql_query maxLen maxRes analyze fields rows q mr).driver_executed = true ↔
      q.length ≤ maxLen ∧ (analyze q).is_safe = true ∧ (analyze q).query_type = "SELECT") := by
  refine ⟨fun hlen => ?_, fun hlen hunsafe => ?_, fun hlen hsafe htype => ?_, ?_⟩
  · simp [execute_sql_query, hlen, ExecResult.status]
  · simp [execute_sql_query, Nat.not_lt.mpr hlen, hunsafe, ExecResult.status]
  · simp [execute_sql_query, Nat.not_lt.mpr hlen, hsafe, htype, ExecResult.status,
      ExecResult.blockedType]
  · constructor
    · intro hexec
      by_cases hlen : q.length > maxLen
      · simp [execute_sql_query, hlen] at hexec
      · push_neg at hlen
        by_cases hsafe : (analyze q).is_safe
        · by_cases htype : (analyze q).query_type = "SELECT"
          · exact ⟨hlen, hsafe, htype⟩
          · simp [execute_sql_query, Nat.not_lt.mpr hlen, hsafe, htype] at hexec
        · simp [execute_sql_query, Nat.not_lt.mpr hlen, hsafe] at hexec
    · rintro ⟨hlen, hsafe, htype⟩
      simp [execute_sql_query, Nat.not_lt.mpr hlen, hsafe, htype]

/-- Witness for C1: a safe `DROP`-classified query within the length limit
is rejected with the blocked type surfaced and no driver execution. -/
theorem execute_sql_query_read_only_gate_witness :
    (("DROP TABLE users".toList.length ≤ 1000) ∧
      ((fun _ => ({ is_safe := true, query_type := "DROP", warnings := [] } : SqlAnalysis))
        "DROP TABLE users".toList).is_safe = true ∧
      ((fun _ => ({ is_safe := true, query_type := "DROP", warnings := [] } : SqlAnalysis))
        "DROP TABLE users".toList).query_type ≠ "SELECT") ∧
    (execute_sql_query 1000 100
      (fun _ => { is_safe := true, query_type := "DROP", warnings := [] })
      [] [] "DROP TABLE users".toList none).result.status = "error" ∧
    (execute_sql_query 1000 100
      (fun _ => { is_safe := true, query_type := "DROP", warnings := [] })
      [] [] "DROP TABLE users".toList none).result.blockedType = some "DROP" ∧
    (execute_sql_query 1000 100
      (fun _ => { is_safe := true, query_type := "DROP", warnings := [] })
      [] [] "DROP TABLE users".toList none).driver_executed = false :=
  ⟨⟨by decide, by decide, by decide⟩, by
    exact (execute_sql_query_read_only_gate 1000 100
      (fun _ => { is_safe := true, query_type := "DROP", warnings := [] })
      [] [] "DROP TABLE users".toList none).2.2.1 (by decide) (by decide) (by decide)⟩

/-- Claim C2: when the driver returns more rows than the effective
`max_rows` limit, `execute_sql_query` reports `truncated = true`, returns
exactly `max_rows` rows, reports `row_count` equal to the number of
returned rows and `total_rows` equal to the pre-truncation count. -/
theorem execute_sql_query_truncation
    (maxLen maxRes : Nat) (analyze : List Char → SqlAnalysis)
    (fields : List String) (rows : List Row) (q : List Char) (mr : Option Nat)
    (hlen : q.length ≤ maxLen)
    (hsafe : (analyze q).is_safe = true)
    (htype : (analyze q).query_type = "SELECT")
    (hover : rows.length > mr.getD maxRes) :
    (execute_sql_query maxLen maxRes analyze fields rows q mr).result.truncated = true ∧
    (execute_sql_query maxLen maxRes analyze fields rows q mr).result.rowsOf.length =
      mr.getD maxRes ∧
    (execute_sql_query maxLen maxRes analyze fields rows q mr).result.rowCount =
      mr.getD maxRes ∧
    (execute_sql_query maxLen maxRes analyze fields rows q mr).result.totalRows =
      rows.length := by
  simp only [execute_sql_query, Nat.not_lt.mpr hlen, if_false, hsafe, htype]
  simp [ExecResult.truncated, ExecResult.rowsOf, ExecResult.rowCount, ExecResult.totalRows,
    hover, List.length_take, Nat.min_eq_left (Nat.le_of_lt hover)]

/-- Witness for C2: with `max_rows = 2` against a 5-row driver result the
call reports `truncated = true`, 2 returned rows, and `total_rows = 5`. -/
theorem execute_sql_query_truncation_witness :
    (("SELECT 1".toList.length ≤ 1000) ∧
      ([["1"], ["2"], ["3"], ["4"], ["5"]] : List Row).length > (some 2 : Option Nat).getD 100) ∧
    (execute_sql_query 1000 100
      (fun _ => { is_safe := true, query_type := "SELECT", warnings := [] })
      ["n"] [["1"], ["2"], ["3"], ["4"], ["5"]] "SELECT 1".toList (some 2)).result.truncated
        = true ∧
    (execute_sql_query 1000 100
      (fun _ => { is_safe := true, query_type := "SELECT", warnings := [] })
      ["n"] [["1"], ["2"], ["3"], ["4"], ["5"]] "SELECT 1".toList
        (some 2)).result.rowsOf.length = 2 ∧
    (execute_sql_query 1000 100
      (fun _ => { is_safe := true, query_type := "SELECT", warnings := [] })
      ["n"] [["1"], ["2"], ["3"], ["4"], ["5"]] "SELECT 1".toList
        (some 2)).result.totalRows = 5 :=
  ⟨⟨by decide, by decide⟩, by
    have h := execute_sql_query_truncation 1000 100
      (fun _ => { is_safe := true, query_type := "SELECT", warnings := [] })
      ["n"] [["1"], ["2"], ["3"], ["4"], ["5"]] "SELECT 1".toList (some 2)
      (by decide) (by decide) (by decide) (by decide)
    exact ⟨h.1, h.2.1, h.2.2.2⟩⟩

/-- Counterexample to claim C3 as stated: for the pathological model that
requests tools in every response, `stream_with_tools` makes
`MAX_TOOL_ROUNDS + 1 = 11` LLM calls (10 tool-round calls plus the
always-issued finalizing streaming call), exceeding `MAX_TOOL_ROUNDS`. -/
theorem stream_with_tools_call_count_counterexample :
    stream_with_tools_llm_calls (fun _ => true) = MAX_TOOL_ROUNDS + 1 ∧
    MAX_TOOL_ROUNDS < stream_with_tools_llm_calls (fun _ => true) := by
  constructor
  · rfl
  · decide

/-- Claim C3 (amended): for every model behaviour, the tool loop of
`stream_with_tools` makes at most `MAX_TOOL_ROUNDS` LLM calls, and the
whole run (including the one finalizing streaming call) makes at most
`MAX_TOOL_ROUNDS + 1` LLM calls. -/
theorem stream_with_tools_call_bound (m : Nat → Bool) :
    toolRoundCalls m MAX_TOOL_ROUNDS 1 ≤ MAX_TOOL_ROUNDS ∧
    stream_with_tools_llm_calls m ≤ MAX_TOOL_ROUNDS + 1 := by
  have h := toolRoundCalls_le m MAX_TOOL_ROUNDS 1
  exact ⟨h, by simp only [stream_with_tools_llm_calls]; omega⟩

/-- Claim C4: when the stored context says connected but the local session
holds no database configuration, `get_connection` returns the
stale-cleared result with reason `"session_expired"` without probing,
clears the stored connected state, and every subsequent call sees a
disconnected state, performs no probe, and writes nothing further. -/
theorem get_connection_session_expired_self_healing
    (ctx : UserContext) (pool_alive : Bool) (now : Nat)
    (hconn : (ctx.current_connection.getD CurrentConnection.absent).connected = true) :
    (get_connection ctx false pool_alive now).result = .staleCleared "session_expired" ∧
    (get_connection ctx false pool_alive now).probed = false ∧
    ((get_connection ctx false pool_alive now).ctx.current_connection.getD
        CurrentConnection.absent).connected = false ∧
    (∀ s2 pool2 now2,
      (get_connection (get_connection ctx false pool_alive now).ctx
          s2 pool2 now2).result.connectedB = false ∧
      (get_connection (get_connection ctx false pool_alive now).ctx
          s2 pool2 now2).probed = false ∧
      (get_connection (get_connection ctx false pool_alive now).ctx
          s2 pool2 now2).ctx = (get_connection ctx false pool_alive now).ctx) := by
  have h1 : get_connection ctx false pool_alive now =
      { result := .staleCleared "session_expired",
        ctx := clear_connection ctx now, probed := false } := by
    simp [get_connection, hconn]
  rw [h1]
  refine ⟨rfl, rfl, by simp [clear_connection], fun s2 pool2 now2 => ?_⟩
  simp [get_connection, clear_connection, ConnResult.connectedB]

/-- Witness for C4 at the concrete connected fixture with a dead session. -/
theorem get_connection_session_expired_self_healing_witness :
    ((sampleCtx.current_connection.getD CurrentConnection.absent).connected = true) ∧
    (get_connection sampleCtx false true 50).result = .staleCleared "session_expired" :=
  ⟨by decide,
   (get_connection_session_expired_self_healing sampleCtx true 50 (by decide)).1⟩

/-- Counterexample to claim C5 as stated: with the persistence preference
0 (the default) and a stored connection 1000 seconds old — so its age
exceeds the 0-minute preference — `get_connection` does not probe at all
and returns the stored connected state; preference 0 does not mean
verify-on-every-access in the code. -/
theorem get_connection_zero_persistence_counterexample :
    (sampleCtx.current_connection.getD CurrentConnection.absent).connected = true ∧
    connection_persistence_minutes sampleCtx = 0 ∧
    1000 - 0 > connection_persistence_minutes sampleCtx * 60 ∧
    (get_connection sampleCtx true true 1000).probed = false ∧
    (get_connection sampleCtx true true 1000).result.connectedB = true := by
  decide

/-- Claim C5 (amended): preference 0 skips the TTL probe entirely (the
session check alone governs staleness); for a positive preference, when
the age of `connected_at` exceeds the preference window in minutes,
`get_connection` probes the connection — on success it refreshes
`connected_at` and returns the stored connected state, on failure it
clears to disconnected with reason `"db_pool_dead"`. -/
theorem get_connection_ttl_probe
    (ctx : UserContext) (conn : CurrentConnection) (pool_alive : Bool)
    (now t : Nat)
    (hc : ctx.current_connection = some conn)
    (hconn : conn.connected = true)
    (hat : conn.connected_at = some t) :
    (connection_persistence_minutes ctx = 0 →
      get_connection ctx true pool_alive now =
        { result := .stored conn, ctx := ctx, probed := false }) ∧
    (0 < connection_persistence_minutes ctx →
      now - t > connection_persistence_minutes ctx * 60 →
      (get_connection ctx true pool_alive now).probed = true ∧
      (pool_alive = true →
        (get_connection ctx true pool_alive now).result = .stored conn ∧
        (get_connection ctx true pool_alive now).ctx.current_connection =
          some { conn with connected_at := some now }) ∧
      (pool_alive = false →
        (get_connection ctx true pool_alive now).result = .staleCleared "db_pool_dead" ∧
        ((get_connection ctx true pool_alive now).ctx.current_connection.getD
            CurrentConnection.absent).connected = false)) := by
  refine ⟨fun hp0 => ?_, fun hppos hage => ?_⟩
  · simp [get_connection, hc, hconn, hat, hp0]
  · have hpne : ¬ connection_persistence_minutes ctx = 0 := by omega
    refine ⟨?_, fun hpool => ?_, fun hpool => ?_⟩
    · cases pool_alive <;> simp [get_connection, hc, hconn, hat, hpne, hage]
    · subst hpool
      constructor
      · simp [get_connection, hc, hconn, hat, hpne, hage]
      · simp [get_connection, hc, hconn, hat, hpne, hage,
          refresh_connection_timestamp]
    · subst hpool
      constructor
      · simp [get_connection, hc, hconn, hat, hpne, hage]
      · simp [get_connection, hc, hconn, hat, hpne, hage, clear_connection]

/-- Witness for C5 (amended) at a 1-minute preference, age 100 s: the
probe runs; a live pool keeps the connection, a dead pool clears it. -/
theorem get_connection_ttl_probe_witness :
    connection_persistence_minutes sampleCtxPersist = 1 ∧
    (get_connection sampleCtxPersist true true 100).probed = true ∧
    (get_connection sampleCtxPersist true false 100).result =
      .staleCleared "db_pool_dead" :=
  ⟨by decide,
   ((get_connection_ttl_probe sampleCtxPersist sampleConn true 100 0
      rfl rfl rfl).2 (by decide) (by decide)).1,
   (((get_connection_ttl_probe sampleCtxPersist sampleConn false 100 0
      rfl rfl rfl).2 (by decide) (by decide)).2.2 rfl).1⟩

/-- Claim C6: `cache_schema` followed by `get_cached_schema` within the
5-minute TTL returns the identical tables and columns; a read after the
TTL has elapsed returns `none` while the stored entry remains (the read
performs no delete); only `invalidate_schema_cache` removes the entry. -/
theorem schema_cache_roundtrip_ttl
    (ctx : UserContext) (db : String) (tables : List String)
    (columns : List (String × List String)) (t t2 t3 : Nat) :
    (t2 - t ≤ SCHEMA_CACHE_TTL_SECONDS →
      get_cached_schema (cache_schema ctx db tables columns t) db t2 =
        some { tables := tables, columns := columns,
               schema_hash := compute_schema_hash tables columns,
               cached_at := some t }) ∧
    (t2 - t > SCHEMA_CACHE_TTL_SECONDS →
      get_cached_schema (cache_schema ctx db tables columns t) db t2 = none ∧
      lookupEntry (cache_schema ctx db tables columns t).database_schemas db =
        some { tables := tables, columns := columns,
               schema_hash := compute_schema_hash tables columns,
               cached_at := some t }) ∧
    lookupEntry
      (invalidate_schema_cache (cache_schema ctx db tables columns t) db
        t3).database_schemas db = none := by
  have hlu := lookupEntry_upsertEntry ctx.database_schemas db
    ({ tables := tables, columns := columns,
       schema_hash := compute_schema_hash tables columns,
       cached_at := some t } : SchemaEntry)
  refine ⟨fun hfresh => ?_, fun hstale => ⟨?_, ?_⟩, ?_⟩
  · simp [get_cached_schema, cache_schema, hlu, Nat.not_lt.mpr hfresh]
  · simp [get_cached_schema, cache_schema, hlu, hstale]
  · simp [cache_schema, hlu]
  · simp [invalidate_schema_cache, cache_schema, lookupEntry_filter_ne]

/-- Witness for C6: caching at t=100 and reading at t=400 (within the
300-second TTL) returns the identical entry. -/
theorem schema_cache_roundtrip_ttl_witness :
    (400 - 100 ≤ SCHEMA_CACHE_TTL_SECONDS ∧
      get_cached_schema (cache_schema sampleCtx "shop" ["t"] [("t", ["c"])] 100)
        "shop" 400 =
        some { tables := ["t"], columns := [("t", ["c"])],
               schema_hash := compute_schema_hash ["t"] [("t", ["c"])],
               cached_at := some 100 }) ∧
    (401 - 100 > SCHEMA_CACHE_TTL_SECONDS ∨ True) :=
  ⟨⟨by decide,
    (schema_cache_roundtrip_ttl sampleCtx "shop" ["t"] [("t", ["c"])]
      100 400 0).1 (by decide)⟩,
   Or.inr trivial⟩

/-- Claim C7: each `add_query` stores the query text truncated to at most
500 characters, appends the new entry at the end, and keeps at most
`MAX_RECENT_QUERIES` (10) entries by evicting from the front; any nonempty
sequence of calls leaves exactly the last 10 of the accumulated entries in
FIFO order. -/
theorem add_query_ring_buffer
    (ctx : UserContext) (q : List Char) (db : String) (rc : Nat) (st : String)
    (now : Nat) (c0 : AddQueryCall) (calls : List AddQueryCall) :
    ({ query := q.take 500, database := db, row_count := rc,
       status := st, executed_at := now } : QueryEntry).query.length ≤ 500 ∧
    (add_query ctx q db rc st now).recent_queries =
      lastN MAX_RECENT_QUERIES (ctx.recent_queries ++
        [{ query := q.take 500, database := db, row_count := rc,
           status := st, executed_at := now }]) ∧
    (add_query ctx q db rc st now).recent_queries.length =
      min (ctx.recent_queries.length + 1) MAX_RECENT_QUERIES ∧
    (add_query ctx q db rc st now).recent_queries.getLast? =
      some { query := q.take 500, database := db, row_count := rc,
             status := st, executed_at := now } ∧
    (applyAddQueries ctx (c0 :: calls)).recent_queries =
      lastN MAX_RECENT_QUERIES
        (ctx.recent_queries ++ (c0 :: calls).map AddQueryCall.entry) := by
  refine ⟨?_, add_query_recent_queries ctx q db rc st now, ?_, ?_,
    applyAddQueries_recent calls ctx c0⟩
  · simp [List.length_take]
  · rw [add_query_recent_queries]
    simp only [lastN, List.length_drop, List.length_append, List.length_cons,
      List.length_nil]
    omega
  · rw [add_query_recent_queries]
    exact lastN_getLast?_concat MAX_RECENT_QUERIES (by decide) _ _

/-- Claim C8: every database name whose lowercase form is in the adapter's
`get_system_databases` set is excluded from the user database list built
by `DatabaseOperations.get_databases`, for all adapters in the repository. -/
theorem get_databases_excludes_system_case_insensitive
    (engine : DBEngine) (databases : List String) (name : String)
    (hmem : pyLower name ∈ get_system_databases engine) :
    name ∉ get_databases_user_list engine databases := by
  intro hin
  rw [get_databases_user_list, List.mem_filter] at hin
  have h2 := hin.2
  rw [Bool.not_eq_eq_eq_not, Bool.not_true] at h2
  rw [List.contains, ← Bool.not_eq_true, List.elem_iff] at h2
  exact h2 hmem

/-- Witness for C8: `"Master"` (mixed case) is filtered out of the SQL
Server database list because its lowercase form is a system database. -/
theorem get_databases_excludes_system_case_insensitive_witness :
    pyLower "Master" ∈ get_system_databases DBEngine.sqlserver ∧
    "Master" ∉ get_databases_user_list DBEngine.sqlserver ["Master", "shop"] :=
  ⟨by decide,
   get_databases_excludes_system_case_insensitive DBEngine.sqlserver
     ["Master", "shop"] "Master" (by decide)⟩

/-- Claim C9: `AIToolExecutor.execute` never propagates an exception: a
tool branch that raises is converted to a structured result carrying an
`error` field, an unknown tool name yields an `error` result, and a
successful branch's payload is returned unchanged — every call returns a
plain result dict. -/
theorem aiToolExecutor_execute_error_containment
    (handler : ToolName → ToolParams → Except String (List (String × String)))
    (tool_name : String) (parameters : Option ToolParams) :
    (parseToolName tool_name = none →
      aiToolExecutor_execute handler tool_name parameters =
        .errorField ("Unknown tool: " ++ tool_name)) ∧
    (∀ t e, parseToolName tool_name = some t →
      handler t (parameters.getD []) = .error e →
      aiToolExecutor_execute handler tool_name parameters = .errorField e) ∧
    (∀ t d, parseToolName tool_name = some t →
      handler t (parameters.getD []) = .ok d →
      aiToolExecutor_execute handler tool_name parameters = .payload d) := by
  refine ⟨fun hnone => ?_, fun t e hsome herr => ?_, fun t d hsome hok => ?_⟩
  · simp [aiToolExecutor_execute, hnone]
  · simp [aiToolExecutor_execute, hsome, herr]
  · simp [aiToolExecutor_execute, hsome, hok]

/-- Witness for C9: a raising `execute_query` branch becomes an error
result; an unknown tool name becomes an error result. -/
theorem aiToolExecutor_execute_error_containment_witness :
    aiToolExecutor_execute (fun _ _ => .error "boom") "execute_query" none =
      .errorField "boom" ∧
    aiToolExecutor_execute (fun _ _ => .ok []) "frobnicate" none =
      .errorField "Unknown tool: frobnicate" :=
  ⟨(aiToolExecutor_execute_error_containment (fun _ _ => .error "boom")
      "execute_query" none).2.1 ToolName.execute_query "boom" (by decide) rfl,
   (aiToolExecutor_execute_error_containment (fun _ _ => .ok [])
      "frobnicate" none).1 (by decide)⟩

/-- Claim C10: `clear_connection` leaves `database_schemas`,
`recent_queries` and `preferences` unchanged, and writes a
`current_connection` with `connected = false` and nulled connection
fields. -/
theorem clear_connection_frame (ctx : UserContext) (now : Nat) :
    (clear_connection ctx now).database_schemas = ctx.database_schemas ∧
    (clear_connection ctx now).recent_queries = ctx.recent_queries ∧
    (clear_connection ctx now).preferences = ctx.preferences ∧
    ((clear_connection ctx now).current_connection.getD
        CurrentConnection.absent).connected = false ∧
    ((clear_connection ctx now).current_connection.getD
        CurrentConnection.absent).db_type = none ∧
    ((clear_connection ctx now).current_connection.getD
        CurrentConnection.absent).database = none ∧
    ((clear_connection ctx now).current_connection.getD
        CurrentConnection.absent).host = none ∧
    ((clear_connection ctx now).current_connection.getD
        CurrentConnection.absent).schema = none ∧
    ((clear_connection ctx now).current_connection.getD
        CurrentConnection.absent).is_remote = false := by
  simp [clear_connection]

end Moonlit
